import Mathlib

/-!
# otelcol.receiver.github: configuration model, defaulting, validation, conversion

A shallow embedding of `internal/component/otelcol/receiver/github`
(`config_github.go`, `github.go`).

Conventions of the embedding
* a Go pointer field (`*ScraperConfig`, `*WebhookConfig`, ...) is an `Option`;
  `nil` is `none`;
* a method with a pointer receiver that mutates its receiver is a function
  returning the updated value;
* `time.Duration` is a signed integer count of nanoseconds; no arithmetic is
  performed on durations here, so no wrap-around can occur;
* a Go `map[string]T` is an association list, looked up with `GoMap.get`;
  the `nil` map is the empty list; map literals keep the order of the source;
* a Go `error` result is an `Except Error Unit`, `nil` being `Except.ok ()`.
-/

set_option autoImplicit false

namespace Github

/-! ## Basic Go types -/

/-- Go `time.Duration`: nanoseconds. -/
abbrev Duration := Int

/-- Go `time.Second`. -/
def Second : Duration := 1000000000

/-- The message carried by a Go `error` made with `errors.New`. -/
abbrev Error := String

/-- Values stored behind `interface{}` in the flattened maps built by the
`Convert` methods: strings, booleans, a `map[string]string` and nested
`map[string]interface{}`. -/
inductive Value where
  | str (s : String)
  | bool (b : Bool)
  | strMap (m : List (String × String))
  | map (m : List (String × Value))

/-- Go `map[string]interface{}`. -/
abbrev GoMap := List (String × Value)

/-- Map indexing `m[k]` with presence flag. -/
def GoMap.get (k : String) : GoMap → Option Value
  | [] => none
  | (k', v) :: rest => if k' = k then some v else GoMap.get k rest

/-- The key set of a map, in the order of the literal that built it. -/
def GoMap.keys (m : GoMap) : List String := m.map Prod.fst

/-! ## config_github.go: the configuration records -/

/-- Go `AuthConfig`. -/
structure AuthConfig where
  Authenticator : String
  deriving DecidableEq, Repr

/-- Go `MetricConfig`. -/
structure MetricConfig where
  Enabled : Bool
  deriving DecidableEq, Repr

/-- Go `MetricsConfig`: the ten fixed metric toggles. -/
structure MetricsConfig where
  VCSChangeCount : MetricConfig
  VCSChangeDuration : MetricConfig
  VCSChangeTimeToApproval : MetricConfig
  VCSChangeTimeToMerge : MetricConfig
  VCSRefCount : MetricConfig
  VCSRefLinesDelta : MetricConfig
  VCSRefRevisionsDelta : MetricConfig
  VCSRefTime : MetricConfig
  VCSRepositoryCount : MetricConfig
  VCSContributorCount : MetricConfig
  deriving DecidableEq, Repr

/-- The Go zero value `MetricsConfig{}`. -/
def MetricsConfig.zero : MetricsConfig :=
  { VCSChangeCount := ⟨false⟩
    VCSChangeDuration := ⟨false⟩
    VCSChangeTimeToApproval := ⟨false⟩
    VCSChangeTimeToMerge := ⟨false⟩
    VCSRefCount := ⟨false⟩
    VCSRefLinesDelta := ⟨false⟩
    VCSRefRevisionsDelta := ⟨false⟩
    VCSRefTime := ⟨false⟩
    VCSRepositoryCount := ⟨false⟩
    VCSContributorCount := ⟨false⟩ }

/-- Go `ScraperConfig`. -/
structure ScraperConfig where
  GithubOrg : String
  SearchQuery : String
  Endpoint : String
  Auth : AuthConfig
  Metrics : MetricsConfig
  deriving DecidableEq, Repr

/-- Go `WebhookConfig`. -/
structure WebhookConfig where
  Endpoint : String
  Path : String
  HealthPath : String
  Secret : String
  RequiredHeaders : List (String × String)
  deriving DecidableEq, Repr

/-! ## Collaborator types declared outside the two source files -/

/-- Modelled from the spec: `extension.ExtensionHandler` is declared outside
the source files at hand; the spec calls it "an opaque handle to a named
extension resource", so it is a record holding that name. -/
structure ExtensionHandler where
  ID : String
  deriving DecidableEq, Repr

/-- Modelled from the spec: `otelcol.ConsumerArguments` is declared outside the
source files at hand; the spec calls it the "mandatory downstream output
sink", so it is a record listing the downstream consumer targets. -/
structure ConsumerArguments where
  Targets : List String
  deriving DecidableEq, Repr

/-- Modelled from the spec: `otelcolCfg.DebugMetricsArguments` is declared
outside the source files at hand. Its two fields are the ones read by
`TestDebugMetricsConfig`; `Level` is a Go string type. -/
structure DebugMetricsArguments where
  DisableHighCardinalityMetrics : Bool
  Level : String
  deriving DecidableEq, Repr

/-- Modelled from the spec: the constant `otelcolCfg.LevelDetailed`, the level
`TestDebugMetricsConfig` expects after defaulting. -/
def LevelDetailed : String := "detailed"

/-- Modelled from the spec: `DebugMetricsArguments.SetToDefault` is declared
outside the source files at hand. The spec says the debug telemetry "is always
defaulted unconditionally" to the "backend-standard defaults"; the defaults
are the ones `TestDebugMetricsConfig` expects for a configuration without a
`debug_metrics` block. -/
def DebugMetricsArguments.SetToDefault (_ : DebugMetricsArguments) : DebugMetricsArguments :=
  { DisableHighCardinalityMetrics := true, Level := LevelDetailed }

/-! ## github.go: the top-level arguments -/

/-- Go `Arguments`. -/
structure Arguments where
  InitialDelay : Duration
  CollectionInterval : Duration
  Scraper : Option ScraperConfig
  Webhook : Option WebhookConfig
  Storage : Option ExtensionHandler
  DebugMetrics : DebugMetricsArguments
  Output : Option ConsumerArguments
  deriving DecidableEq, Repr

/-- The Go zero value `Arguments{}`. -/
def Arguments.zero : Arguments :=
  { InitialDelay := 0
    CollectionInterval := 0
    Scraper := none
    Webhook := none
    Storage := none
    DebugMetrics := { DisableHighCardinalityMetrics := false, Level := "" }
    Output := none }

/-! ## Default filling -/

/-- Go `(*MetricsConfig).SetToDefault`: overwrite with the default matrix. -/
def MetricsConfig.SetToDefault (_ : MetricsConfig) : MetricsConfig :=
  { VCSChangeCount := ⟨true⟩
    VCSChangeDuration := ⟨true⟩
    VCSChangeTimeToApproval := ⟨true⟩
    VCSChangeTimeToMerge := ⟨true⟩
    VCSRefCount := ⟨true⟩
    VCSRefLinesDelta := ⟨true⟩
    VCSRefRevisionsDelta := ⟨true⟩
    VCSRefTime := ⟨true⟩
    VCSRepositoryCount := ⟨true⟩
    VCSContributorCount := ⟨false⟩ }

/-- Go `(*ScraperConfig).SetToDefault`. -/
def ScraperConfig.SetToDefault (sc : ScraperConfig) : ScraperConfig :=
  if sc.Metrics = MetricsConfig.zero then
    { sc with Metrics := sc.Metrics.SetToDefault }
  else sc

/-- Go `(*WebhookConfig).SetToDefault`. -/
def WebhookConfig.SetToDefault (wc : WebhookConfig) : WebhookConfig :=
  let wc := if wc.Endpoint = "" then { wc with Endpoint := "localhost:8080" } else wc
  let wc := if wc.Path = "" then { wc with Path := "/events" } else wc
  let wc := if wc.HealthPath = "" then { wc with HealthPath := "/health" } else wc
  wc

/-- Go `(*Arguments).SetToDefault`. -/
def Arguments.SetToDefault (args : Arguments) : Arguments :=
  let args := if args.InitialDelay = 0 then { args with InitialDelay := 0 } else args
  let args :=
    if args.CollectionInterval = 0 then { args with CollectionInterval := 30 * Second } else args
  let args :=
    match args.Scraper with
    | some sc => { args with Scraper := some sc.SetToDefault }
    | none => args
  let args :=
    match args.Webhook with
    | some wc => { args with Webhook := some wc.SetToDefault }
    | none => args
  { args with DebugMetrics := args.DebugMetrics.SetToDefault }

/-! ## Validation -/

/-- Go `(*ScraperConfig).Validate`. -/
def ScraperConfig.Validate (sc : ScraperConfig) : Except Error Unit :=
  if sc.GithubOrg = "" then Except.error "github_org is required" else Except.ok ()

/-- Go `(*Arguments).Validate`. -/
def Arguments.Validate (args : Arguments) : Except Error Unit :=
  match args.Scraper with
  | some sc =>
    match sc.Validate with
    | Except.error err => Except.error err
    | Except.ok _ => Except.ok ()
  | none => Except.ok ()

/-! ## Flattening into `map[string]interface{}` -/

/-- Go `AuthConfig.Convert`. -/
def AuthConfig.Convert (ac : AuthConfig) : GoMap :=
  [("authenticator", Value.str ac.Authenticator)]

/-- Go `(*MetricConfig).Convert`; the receiver may be the `nil` pointer. -/
def MetricConfig.Convert (m : Option MetricConfig) : GoMap :=
  match m with
  | none => []
  | some m => [("enabled", Value.bool m.Enabled)]

/-- Go `(*MetricsConfig).Convert`; the receiver may be the `nil` pointer. Each
field is converted through its address, which is never `nil`. -/
def MetricsConfig.Convert (m : Option MetricsConfig) : GoMap :=
  match m with
  | none => []
  | some m =>
    [ ("vcs.change.count", Value.map (MetricConfig.Convert (some m.VCSChangeCount))),
      ("vcs.change.duration", Value.map (MetricConfig.Convert (some m.VCSChangeDuration))),
      ("vcs.change.time_to_approval",
        Value.map (MetricConfig.Convert (some m.VCSChangeTimeToApproval))),
      ("vcs.change.time_to_merge", Value.map (MetricConfig.Convert (some m.VCSChangeTimeToMerge))),
      ("vcs.ref.count", Value.map (MetricConfig.Convert (some m.VCSRefCount))),
      ("vcs.ref.lines_delta", Value.map (MetricConfig.Convert (some m.VCSRefLinesDelta))),
      ("vcs.ref.revisions_delta", Value.map (MetricConfig.Convert (some m.VCSRefRevisionsDelta))),
      ("vcs.ref.time", Value.map (MetricConfig.Convert (some m.VCSRefTime))),
      ("vcs.repository.count", Value.map (MetricConfig.Convert (some m.VCSRepositoryCount))),
      ("vcs.contributor.count", Value.map (MetricConfig.Convert (some m.VCSContributorCount))) ]

/-- Go `ScraperConfig.Convert`. -/
def ScraperConfig.Convert (sc : ScraperConfig) : GoMap :=
  [ ("github_org", Value.str sc.GithubOrg),
    ("search_query", Value.str sc.SearchQuery),
    ("endpoint", Value.str sc.Endpoint),
    ("auth", Value.map sc.Auth.Convert),
    ("metrics", Value.map (MetricsConfig.Convert (some sc.Metrics))) ]

/-- Go `WebhookConfig.Convert`. -/
def WebhookConfig.Convert (wc : WebhookConfig) : GoMap :=
  [ ("endpoint", Value.str wc.Endpoint),
    ("path", Value.str wc.Path),
    ("health_path", Value.str wc.HealthPath),
    ("secret", Value.str wc.Secret),
    ("required_headers", Value.strMap wc.RequiredHeaders) ]

/-! ## The backend configuration and conversion -/

/-- The two fields of `scraperhelper.ControllerConfig` that `Convert` writes. -/
structure ControllerConfig where
  InitialDelay : Duration
  CollectionInterval : Duration
  deriving DecidableEq, Repr

/-- Modelled from the spec: `githubreceiver.WebHook`, "the backend's native
webhook structure", is declared in the wrapped receiver library. It has one
field for each key of the webhook's flattened map. -/
structure WebHook where
  Endpoint : String
  Path : String
  HealthPath : String
  Secret : String
  RequiredHeaders : List (String × String)
  deriving DecidableEq, Repr

/-- The Go zero value `githubreceiver.WebHook{}`. -/
def WebHook.zero : WebHook :=
  { Endpoint := "", Path := "", HealthPath := "", Secret := "", RequiredHeaders := [] }

/-- The part of `githubreceiver.Config` that `Convert` builds: the embedded
controller configuration, the scraper registry (written through a pointer cast
as a `map[string]interface{}`) and the webhook section. -/
structure Config where
  ControllerConfig : ControllerConfig
  Scrapers : GoMap
  WebHook : WebHook

/-- The signature of `mapstructure.Decode(input, &out)`: the input map, the
current value of the output and either an error or the new output value. -/
abbrev Decoder := GoMap → WebHook → Except Error WebHook

/-- Decoding of one string-typed field: an absent key leaves the field as it
is, a string is copied, anything else is a type mismatch. -/
def decodeString (m : GoMap) (key : String) (cur : String) : Except Error String :=
  match m.get key with
  | none => Except.ok cur
  | some (Value.str s) => Except.ok s
  | some _ => Except.error ("incompatible field: " ++ key)

/-- Decoding of one field typed `map[string]string`. -/
def decodeStrMap (m : GoMap) (key : String) (cur : List (String × String)) :
    Except Error (List (String × String)) :=
  match m.get key with
  | none => Except.ok cur
  | some (Value.strMap h) => Except.ok h
  | some _ => Except.error ("incompatible field: " ++ key)

/-- The keys the backend webhook structure has a field for. -/
def webHookKeys : List String :=
  ["endpoint", "path", "health_path", "secret", "required_headers"]

/-- Modelled from the spec: `mapstructure.Decode` into `githubreceiver.WebHook`
is library code. The spec describes it as decoding the flattened map "into the
backend's native webhook structure field-for-field", where "a decoding mismatch
(unknown/incompatible field) fails". -/
def mapstructureDecode : Decoder := fun m out =>
  match m.keys.find? (fun k => !(webHookKeys.contains k)) with
  | some k => Except.error ("unknown field: " ++ k)
  | none =>
    match decodeString m "endpoint" out.Endpoint with
    | Except.error e => Except.error e
    | Except.ok endpoint =>
    match decodeString m "path" out.Path with
    | Except.error e => Except.error e
    | Except.ok path =>
    match decodeString m "health_path" out.HealthPath with
    | Except.error e => Except.error e
    | Except.ok healthPath =>
    match decodeString m "secret" out.Secret with
    | Except.error e => Except.error e
    | Except.ok secret =>
    match decodeStrMap m "required_headers" out.RequiredHeaders with
    | Except.error e => Except.error e
    | Except.ok headers =>
      Except.ok
        { Endpoint := endpoint, Path := path, HealthPath := healthPath, Secret := secret,
          RequiredHeaders := headers }

/-- Go `Arguments.Convert`, with the map decoder it calls as a parameter. -/
def Arguments.Convert (decode : Decoder) (args : Arguments) : Except Error Config :=
  let config : Config :=
    { ControllerConfig :=
        { InitialDelay := args.InitialDelay, CollectionInterval := args.CollectionInterval }
      Scrapers := []
      WebHook := WebHook.zero }
  let config :=
    match args.Scraper with
    | some sc => { config with Scrapers := [("scraper", Value.map sc.Convert)] }
    | none => config
  match args.Webhook with
  | some wc =>
    match decode wc.Convert config.WebHook with
    | Except.error err => Except.error err
    | Except.ok wh => Except.ok { config with WebHook := wh }
  | none => Except.ok config

/-! ## Accessors -/

/-- Go `Arguments.Extensions`: the `nil` map. -/
def Arguments.Extensions (_ : Arguments) : List (String × ExtensionHandler) := []

/-- Go `Arguments.Exporters`: the `nil` map. -/
def Arguments.Exporters (_ : Arguments) : List (String × List (String × ExtensionHandler)) := []

/-- Go `Arguments.NextConsumers`. -/
def Arguments.NextConsumers (args : Arguments) : Option ConsumerArguments := args.Output

/-- Go `Arguments.DebugMetricsConfig`. -/
def Arguments.DebugMetricsConfig (args : Arguments) : DebugMetricsArguments := args.DebugMetrics

/-! ## Predicates used to state the defaulting contract -/

/-- A field is kept: when its value before was not the zero value of its type,
the value after is the value before. -/
def Kept {α : Type} (zero before after : α) : Prop :=
  before ≠ zero → after = before

instance {α : Type} [DecidableEq α] (zero before after : α) :
    Decidable (Kept zero before after) := by
  unfold Kept; infer_instance

/-- Every one of the ten metric toggles is kept. -/
def MetricsConfig.KeptBy (m m' : MetricsConfig) : Prop :=
  Kept false m.VCSChangeCount.Enabled m'.VCSChangeCount.Enabled ∧
  Kept false m.VCSChangeDuration.Enabled m'.VCSChangeDuration.Enabled ∧
  Kept false m.VCSChangeTimeToApproval.Enabled m'.VCSChangeTimeToApproval.Enabled ∧
  Kept false m.VCSChangeTimeToMerge.Enabled m'.VCSChangeTimeToMerge.Enabled ∧
  Kept false m.VCSRefCount.Enabled m'.VCSRefCount.Enabled ∧
  Kept false m.VCSRefLinesDelta.Enabled m'.VCSRefLinesDelta.Enabled ∧
  Kept false m.VCSRefRevisionsDelta.Enabled m'.VCSRefRevisionsDelta.Enabled ∧
  Kept false m.VCSRefTime.Enabled m'.VCSRefTime.Enabled ∧
  Kept false m.VCSRepositoryCount.Enabled m'.VCSRepositoryCount.Enabled ∧
  Kept false m.VCSContributorCount.Enabled m'.VCSContributorCount.Enabled

instance (m m' : MetricsConfig) : Decidable (MetricsConfig.KeptBy m m') := by
  unfold MetricsConfig.KeptBy; infer_instance

/-- Every field of a scraper block is kept. -/
def ScraperConfig.KeptBy (sc sc' : ScraperConfig) : Prop :=
  Kept "" sc.GithubOrg sc'.GithubOrg ∧
  Kept "" sc.SearchQuery sc'.SearchQuery ∧
  Kept "" sc.Endpoint sc'.Endpoint ∧
  Kept "" sc.Auth.Authenticator sc'.Auth.Authenticator ∧
  MetricsConfig.KeptBy sc.Metrics sc'.Metrics

instance (sc sc' : ScraperConfig) : Decidable (ScraperConfig.KeptBy sc sc') := by
  unfold ScraperConfig.KeptBy; infer_instance

/-- Every field of a webhook block is kept. -/
def WebhookConfig.KeptBy (wc wc' : WebhookConfig) : Prop :=
  Kept "" wc.Endpoint wc'.Endpoint ∧
  Kept "" wc.Path wc'.Path ∧
  Kept "" wc.HealthPath wc'.HealthPath ∧
  Kept "" wc.Secret wc'.Secret ∧
  Kept [] wc.RequiredHeaders wc'.RequiredHeaders

instance (wc wc' : WebhookConfig) : Decidable (WebhookConfig.KeptBy wc wc') := by
  unfold WebhookConfig.KeptBy; infer_instance

/-- Both debug-telemetry settings are kept. -/
def DebugMetricsArguments.KeptBy (d d' : DebugMetricsArguments) : Prop :=
  Kept false d.DisableHighCardinalityMetrics d'.DisableHighCardinalityMetrics ∧
  Kept "" d.Level d'.Level

instance (d d' : DebugMetricsArguments) : Decidable (DebugMetricsArguments.KeptBy d d') := by
  unfold DebugMetricsArguments.KeptBy; infer_instance

/-- A block behind a pointer is kept: a block that was present is still
present and its fields are kept; nothing is asked of a `nil` pointer. -/
def BlockKept {α : Type} (fields : α → α → Prop) : Option α → Option α → Prop
  | some a, some a' => fields a a'
  | some _, none => False
  | none, _ => True

instance {α : Type} (fields : α → α → Prop) [∀ a a', Decidable (fields a a')]
    (o o' : Option α) : Decidable (BlockKept fields o o') := by
  cases o <;> cases o' <;> unfold BlockKept <;> infer_instance

/-- Every field outside the debug-telemetry settings is kept: the scheduling
fields, the scraper block and its fields, the webhook block and its fields, the
storage reference and the output sink. -/
def Arguments.KeptOutsideDebug (c c' : Arguments) : Prop :=
  Kept 0 c.InitialDelay c'.InitialDelay ∧
  Kept 0 c.CollectionInterval c'.CollectionInterval ∧
  BlockKept ScraperConfig.KeptBy c.Scraper c'.Scraper ∧
  BlockKept WebhookConfig.KeptBy c.Webhook c'.Webhook ∧
  Kept none c.Storage c'.Storage ∧
  Kept none c.Output c'.Output

instance (c c' : Arguments) : Decidable (Arguments.KeptOutsideDebug c c') := by
  unfold Arguments.KeptOutsideDebug; infer_instance

/-- Non-destructive change of a configuration: every field, the
debug-telemetry settings included, is kept. -/
def Arguments.KeptBy (c c' : Arguments) : Prop :=
  Arguments.KeptOutsideDebug c c' ∧ DebugMetricsArguments.KeptBy c.DebugMetrics c'.DebugMetrics

instance (c c' : Arguments) : Decidable (Arguments.KeptBy c c') := by
  unfold Arguments.KeptBy; infer_instance

/-- The ten fixed metric names, in the order of the map literal. -/
def metricKeys : List String :=
  [ "vcs.change.count", "vcs.change.duration", "vcs.change.time_to_approval",
    "vcs.change.time_to_merge", "vcs.ref.count", "vcs.ref.lines_delta",
    "vcs.ref.revisions_delta", "vcs.ref.time", "vcs.repository.count",
    "vcs.contributor.count" ]

/-- The flattened form of one toggle: the one-entry map `{"enabled": b}`. -/
def enabledMap (b : Bool) : Value := Value.map [("enabled", Value.bool b)]

/-! ## Sample configurations -/

/-- A scraper block without `github_org`, every other field set. -/
def sampleScraperNoOrg : ScraperConfig :=
  { GithubOrg := ""
    SearchQuery := "is:pr"
    Endpoint := "https://api.github.com"
    Auth := { Authenticator := "my_auth" }
    Metrics := { MetricsConfig.zero with VCSChangeCount := ⟨true⟩ } }

/-- A full configuration whose scraper block has no `github_org`. -/
def sampleArgsNoOrg : Arguments :=
  { InitialDelay := 1 * Second
    CollectionInterval := 30 * Second
    Scraper := some sampleScraperNoOrg
    Webhook := some
      { Endpoint := "0.0.0.0:8080", Path := "/webhooks", HealthPath := "/healthz",
        Secret := "my-webhook-secret", RequiredHeaders := [("X-Custom-Header", "value")] }
    Storage := some { ID := "file_storage" }
    DebugMetrics := { DisableHighCardinalityMetrics := true, Level := "detailed" }
    Output := some { Targets := ["exporter"] } }

/-- A scraper block with an org and nothing else: empty authenticator
reference, zero metrics matrix. -/
def sampleScraperOrgOnly : ScraperConfig :=
  { GithubOrg := "my-org"
    SearchQuery := ""
    Endpoint := ""
    Auth := { Authenticator := "" }
    Metrics := MetricsConfig.zero }

/-- A configuration with an org-only scraper, a negative collection interval
and a webhook block whose fields are all empty. -/
def sampleArgsOrgOnly : Arguments :=
  { Arguments.zero with
    CollectionInterval := -5
    Scraper := some sampleScraperOrgOnly
    Webhook := some
      { Endpoint := "", Path := "", HealthPath := "", Secret := "", RequiredHeaders := [] } }

/-- A configuration with only a webhook block, whose endpoint alone is set. -/
def sampleArgsWebhookOnly : Arguments :=
  { Arguments.zero with
    Webhook := some
      { Endpoint := "0.0.0.0:9090", Path := "", HealthPath := "", Secret := "",
        RequiredHeaders := [] } }

/-- A configuration whose debug-telemetry level was set to "basic" by the
user, with a scraper block of which two toggles are enabled. -/
def sampleArgsDebugBasic : Arguments :=
  { InitialDelay := 5 * Second
    CollectionInterval := 45 * Second
    Scraper := some
      { GithubOrg := "my-org"
        SearchQuery := "is:pr is:open"
        Endpoint := ""
        Auth := { Authenticator := "my_auth" }
        Metrics :=
          { MetricsConfig.zero with VCSChangeCount := ⟨true⟩, VCSContributorCount := ⟨true⟩ } }
    Webhook := some
      { Endpoint := "0.0.0.0:9090", Path := "", HealthPath := "", Secret := "s3cret",
        RequiredHeaders := [] }
    Storage := some { ID := "file_storage" }
    DebugMetrics := { DisableHighCardinalityMetrics := false, Level := "basic" }
    Output := some { Targets := ["exporter"] } }

/-- The end-to-end example: a 60 second interval and a scraper block with an
org, a search query and an authenticator reference. -/
def sampleScraperMyOrg : ScraperConfig :=
  { GithubOrg := "my-org"
    SearchQuery := "is:pr is:open"
    Endpoint := ""
    Auth := { Authenticator := "my_auth" }
    Metrics := MetricsConfig.zero }

/-- The configuration of the end-to-end example. -/
def sampleArgsMyOrg : Arguments :=
  { Arguments.zero with
    CollectionInterval := 60 * Second
    Scraper := some sampleScraperMyOrg
    Output := some { Targets := [] } }

/-- At least one of the ten toggles of the matrix is enabled. -/
def MetricsConfig.anyEnabled (m : MetricsConfig) : Bool :=
  m.VCSChangeCount.Enabled || m.VCSChangeDuration.Enabled ||
    m.VCSChangeTimeToApproval.Enabled || m.VCSChangeTimeToMerge.Enabled ||
    m.VCSRefCount.Enabled || m.VCSRefLinesDelta.Enabled ||
    m.VCSRefRevisionsDelta.Enabled || m.VCSRefTime.Enabled ||
    m.VCSRepositoryCount.Enabled || m.VCSContributorCount.Enabled

/-- The scraper registry `Arguments.Convert` builds from the scraper block. -/
def scraperRegistry : Option ScraperConfig → GoMap
  | some sc => [("scraper", Value.map sc.Convert)]
  | none => []

/-- A decoder that rejects every input: a backend whose webhook structure no
longer matches the flattened map. -/
def rejectingDecode : Decoder := fun _ _ => Except.error "decode failure"

/-- A configuration that was never defaulted: zero collection interval, a
scraper block with an org. -/
def sampleArgsUndefaulted : Arguments :=
  { Arguments.zero with Scraper := some sampleScraperMyOrg }

/-- A configuration that fails validation (scraper without org) and has no
webhook block. -/
def sampleArgsNoOrgNoWebhook : Arguments :=
  { sampleArgsNoOrg with Webhook := none }

/-- The matrix of the "selective metrics disabled" test: one toggle enabled,
two disabled explicitly, the others not mentioned. -/
def sampleMetricsSelective : MetricsConfig :=
  { MetricsConfig.zero with VCSChangeCount := ⟨true⟩ }

/-- A scraper block carrying the selective matrix. -/
def sampleScraperSelective : ScraperConfig :=
  { sampleScraperMyOrg with Metrics := sampleMetricsSelective }

/-- A webhook block of which only the endpoint is set. -/
def sampleWebhookEndpointOnly : WebhookConfig :=
  { Endpoint := "0.0.0.0:9090", Path := "", HealthPath := "", Secret := "",
    RequiredHeaders := [] }

/-- A webhook block with every field set, as in the "webhook with custom
values" test. -/
def sampleWebhookCustom : WebhookConfig :=
  { Endpoint := "0.0.0.0:8080", Path := "/github/events", HealthPath := "/github/health",
    Secret := "super-secret", RequiredHeaders := [("X-GitHub-Event", "pull_request")] }

/-- A scraper and webhook configuration with the endpoint-only webhook. -/
def sampleArgsWebhookDefaults : Arguments :=
  { Arguments.zero with
    CollectionInterval := 30 * Second
    Scraper := some sampleScraperMyOrg
    Webhook := some sampleWebhookEndpointOnly }

/-- The end-to-end example with a storage reference. -/
def sampleArgsStorageA : Arguments :=
  { sampleArgsMyOrg with Storage := some { ID := "file_storage.a" } }

/-- The same configuration with another storage reference. -/
def sampleArgsStorageB : Arguments :=
  { sampleArgsMyOrg with Storage := some { ID := "file_storage.b" } }

/-! ## Validation -/

/-- C1: whenever the scraper block is present and its `github_org` is the empty
string, `Arguments.Validate` fails, whatever the other fields hold, with the
error whose message is "github_org is required"; that message contains
"github_org". -/
theorem validate_fails_on_empty_org (args : Arguments) (sc : ScraperConfig)
    (hsc : args.Scraper = some sc) (horg : sc.GithubOrg = "") :
    args.Validate = Except.error "github_org is required" ∧
      "github_org".toList <:+: "github_org is required".toList := by
  refine ⟨?_, by decide⟩
  simp [Arguments.Validate, ScraperConfig.Validate, hsc, horg]

/-- Witness of C1 at a full configuration whose scraper has no org. -/
theorem validate_fails_on_empty_org_witness :
    sampleArgsNoOrg.Scraper = some sampleScraperNoOrg ∧ sampleScraperNoOrg.GithubOrg = "" ∧
      sampleArgsNoOrg.Validate = Except.error "github_org is required" :=
  ⟨rfl, rfl, (validate_fails_on_empty_org sampleArgsNoOrg sampleScraperNoOrg rfl rfl).1⟩

/-- C2: a configuration without a scraper block validates successfully. -/
theorem validate_ok_without_scraper (args : Arguments) (hsc : args.Scraper = none) :
    args.Validate = Except.ok () := by
  simp [Arguments.Validate, hsc]

/-- Witness of C2 at the zero configuration after defaulting and at a
webhook-only configuration. -/
theorem validate_ok_without_scraper_witness :
    Arguments.zero.SetToDefault.Scraper = none ∧
      Arguments.zero.SetToDefault.Validate = Except.ok () ∧
      sampleArgsWebhookOnly.Validate = Except.ok () :=
  ⟨rfl, validate_ok_without_scraper Arguments.zero.SetToDefault rfl,
    validate_ok_without_scraper sampleArgsWebhookOnly rfl⟩

/-- C3: `Arguments.Validate` returns an error exactly when a scraper block is
present with an empty `github_org`; a scraper with a non-empty `github_org`
always validates, whatever the authenticator reference, the intervals and the
webhook fields are. -/
theorem validate_error_iff_empty_org (args : Arguments) :
    ((∃ e, args.Validate = Except.error e) ↔
        ∃ sc, args.Scraper = some sc ∧ sc.GithubOrg = "") ∧
      (∀ sc, args.Scraper = some sc → sc.GithubOrg ≠ "" → args.Validate = Except.ok ()) := by
  constructor
  · constructor
    · rintro ⟨e, he⟩
      cases hsc : args.Scraper with
      | none => simp [Arguments.Validate, hsc] at he
      | some sc =>
        refine ⟨sc, rfl, ?_⟩
        by_contra horg
        simp [Arguments.Validate, ScraperConfig.Validate, hsc, horg] at he
    · rintro ⟨sc, hsc, horg⟩
      exact ⟨"github_org is required",
        by simp [Arguments.Validate, ScraperConfig.Validate, hsc, horg]⟩
  · intro sc hsc horg
    simp [Arguments.Validate, ScraperConfig.Validate, hsc, horg]

/-- Witness of C3 at a configuration whose scraper has an org but an empty
authenticator reference, with a negative collection interval and an empty
webhook block. -/
theorem validate_error_iff_empty_org_witness :
    sampleArgsOrgOnly.Scraper = some sampleScraperOrgOnly ∧
      sampleScraperOrgOnly.GithubOrg ≠ "" ∧
      sampleScraperOrgOnly.Auth.Authenticator = "" ∧
      sampleArgsOrgOnly.CollectionInterval < 0 ∧
      sampleArgsOrgOnly.Validate = Except.ok () :=
  ⟨rfl, by decide, rfl, by decide,
    (validate_error_iff_empty_org sampleArgsOrgOnly).2 sampleScraperOrgOnly rfl (by decide)⟩

/-! ## Default filling -/

/-- The default matrix is not the zero matrix. -/
theorem metrics_setToDefault_ne_zero (m : MetricsConfig) :
    m.SetToDefault ≠ MetricsConfig.zero := by
  simp [MetricsConfig.SetToDefault, MetricsConfig.zero]

/-- Closed form of `ScraperConfig.SetToDefault`: only the matrix may change. -/
theorem scraper_setToDefault_eq (sc : ScraperConfig) :
    sc.SetToDefault =
      { GithubOrg := sc.GithubOrg
        SearchQuery := sc.SearchQuery
        Endpoint := sc.Endpoint
        Auth := sc.Auth
        Metrics := if sc.Metrics = MetricsConfig.zero then sc.Metrics.SetToDefault
          else sc.Metrics } := by
  unfold ScraperConfig.SetToDefault
  split <;> rfl

/-- Closed form of `WebhookConfig.SetToDefault`. -/
theorem webhook_setToDefault_eq (wc : WebhookConfig) :
    wc.SetToDefault =
      { Endpoint := if wc.Endpoint = "" then "localhost:8080" else wc.Endpoint
        Path := if wc.Path = "" then "/events" else wc.Path
        HealthPath := if wc.HealthPath = "" then "/health" else wc.HealthPath
        Secret := wc.Secret
        RequiredHeaders := wc.RequiredHeaders } := by
  obtain ⟨e, p, h, s, r⟩ := wc
  simp only [WebhookConfig.SetToDefault]
  split_ifs <;> rfl

/-- Closed form of `Arguments.SetToDefault`. -/
theorem arguments_setToDefault_eq (c : Arguments) :
    c.SetToDefault =
      { InitialDelay := c.InitialDelay
        CollectionInterval :=
          if c.CollectionInterval = 0 then 30 * Second else c.CollectionInterval
        Scraper := c.Scraper.map ScraperConfig.SetToDefault
        Webhook := c.Webhook.map WebhookConfig.SetToDefault
        Storage := c.Storage
        DebugMetrics := c.DebugMetrics.SetToDefault
        Output := c.Output } := by
  obtain ⟨d, ci, sc, wc, st, dm, out⟩ := c
  simp only [Arguments.SetToDefault]
  cases sc <;> cases wc <;> split_ifs <;> simp_all

/-- Defaulting a scraper block twice is defaulting it once. -/
theorem scraper_setToDefault_idem (sc : ScraperConfig) :
    sc.SetToDefault.SetToDefault = sc.SetToDefault := by
  unfold ScraperConfig.SetToDefault
  by_cases h : sc.Metrics = MetricsConfig.zero
  · simp [h, metrics_setToDefault_ne_zero]
  · simp [h]

/-- Defaulting a webhook block twice is defaulting it once. -/
theorem webhook_setToDefault_idem (wc : WebhookConfig) :
    wc.SetToDefault.SetToDefault = wc.SetToDefault := by
  simp only [webhook_setToDefault_eq]
  by_cases h1 : wc.Endpoint = "" <;> by_cases h2 : wc.Path = "" <;>
    by_cases h3 : wc.HealthPath = "" <;> simp [h1, h2, h3]

/-- C4: `Arguments.SetToDefault` is idempotent: for every configuration,
applying it twice yields the same configuration as applying it once. -/
theorem setToDefault_idempotent (c : Arguments) :
    c.SetToDefault.SetToDefault = c.SetToDefault := by
  rw [arguments_setToDefault_eq c.SetToDefault, arguments_setToDefault_eq c]
  have hci : (30 : Int) * Second ≠ 0 := by decide
  cases hs : c.Scraper <;> cases hw : c.Webhook <;>
    by_cases h : c.CollectionInterval = 0 <;>
    simp [h, hci, scraper_setToDefault_idem, webhook_setToDefault_idem,
      DebugMetricsArguments.SetToDefault]

/-- C6: after `Arguments.SetToDefault` the collection interval is 30 seconds
when it was zero and its original value otherwise, and the initial delay is
its original value. -/
theorem setToDefault_scheduling (c : Arguments) :
    c.SetToDefault.CollectionInterval =
        (if c.CollectionInterval = 0 then 30000000000 else c.CollectionInterval) ∧
      c.SetToDefault.InitialDelay = c.InitialDelay := by
  rw [arguments_setToDefault_eq c]
  refine ⟨?_, rfl⟩
  simp only
  split_ifs
  · decide
  · rfl

/-- A scraper block keeps every field under defaulting. -/
theorem scraper_keptBy_setToDefault (sc : ScraperConfig) :
    ScraperConfig.KeptBy sc sc.SetToDefault := by
  rw [scraper_setToDefault_eq]
  by_cases h : sc.Metrics = MetricsConfig.zero
  · simp [ScraperConfig.KeptBy, MetricsConfig.KeptBy, Kept, h, MetricsConfig.zero]
  · simp [ScraperConfig.KeptBy, MetricsConfig.KeptBy, Kept, h]

/-- A webhook block keeps every field under defaulting. -/
theorem webhook_keptBy_setToDefault (wc : WebhookConfig) :
    WebhookConfig.KeptBy wc wc.SetToDefault := by
  rw [webhook_setToDefault_eq]
  simp only [WebhookConfig.KeptBy, Kept]
  refine ⟨?_, ?_, ?_, ?_, ?_⟩ <;> intro h <;> simp [h]

/-- Counterexample to C5 as stated: a debug-telemetry level set to "basic" is
not at its zero value, yet `Arguments.SetToDefault` replaces it by "detailed",
so the configuration is not kept field by field. -/
theorem setToDefault_overwrites_debug_level :
    sampleArgsDebugBasic.DebugMetrics.Level = "basic" ∧
      sampleArgsDebugBasic.DebugMetrics.Level ≠ "" ∧
      sampleArgsDebugBasic.SetToDefault.DebugMetrics.Level = "detailed" ∧
      ¬ Arguments.KeptBy sampleArgsDebugBasic sampleArgsDebugBasic.SetToDefault := by
  refine ⟨rfl, by decide, rfl, ?_⟩
  intro h
  have hl := h.2.2 (by decide)
  revert hl
  decide

/-- C5, amended: `Arguments.SetToDefault` keeps every field outside the
debug-telemetry settings that is not at its zero value (scheduling fields,
scraper fields, each metric toggle, webhook fields, storage reference, output
sink) and keeps an enabled `disable_high_cardinality_metrics`; the
debug-telemetry settings as a whole are replaced by their defaults,
`disable_high_cardinality_metrics = true` and level "detailed". -/
theorem setToDefault_keeps_outside_debug (c : Arguments) :
    Arguments.KeptOutsideDebug c c.SetToDefault ∧
      Kept false c.DebugMetrics.DisableHighCardinalityMetrics
        c.SetToDefault.DebugMetrics.DisableHighCardinalityMetrics ∧
      c.SetToDefault.DebugMetrics =
        { DisableHighCardinalityMetrics := true, Level := "detailed" } := by
  rw [arguments_setToDefault_eq c]
  refine ⟨⟨?_, ?_, ?_, ?_, ?_, ?_⟩, ?_, rfl⟩
  · intro _; rfl
  · intro h; simp [h]
  · cases hs : c.Scraper with
    | none => simp [BlockKept]
    | some sc => simpa [BlockKept] using scraper_keptBy_setToDefault sc
  · cases hw : c.Webhook with
    | none => simp [BlockKept]
    | some wc => simpa [BlockKept] using webhook_keptBy_setToDefault wc
  · intro _; rfl
  · intro _; rfl
  · intro h
    simpa [DebugMetricsArguments.SetToDefault] using h

/-- Witness of the amended C5 at a configuration with explicit values: the
45 second interval, the two enabled toggles, the webhook endpoint and secret
are all kept, and the debug-telemetry settings are the defaults. -/
theorem setToDefault_keeps_outside_debug_witness :
    sampleArgsDebugBasic.SetToDefault.CollectionInterval = 45 * Second ∧
      Arguments.KeptOutsideDebug sampleArgsDebugBasic sampleArgsDebugBasic.SetToDefault ∧
      sampleArgsDebugBasic.SetToDefault.DebugMetrics =
        { DisableHighCardinalityMetrics := true, Level := "detailed" } :=
  ⟨by decide, (setToDefault_keeps_outside_debug sampleArgsDebugBasic).1,
    (setToDefault_keeps_outside_debug sampleArgsDebugBasic).2.2⟩

/-! ## Conversion -/

/-- The modelled decoder accepts every flattened webhook map and copies it
field for field. -/
theorem mapstructureDecode_webhook (wc : WebhookConfig) (out : WebHook) :
    mapstructureDecode wc.Convert out =
      Except.ok
        { Endpoint := wc.Endpoint, Path := wc.Path, HealthPath := wc.HealthPath,
          Secret := wc.Secret, RequiredHeaders := wc.RequiredHeaders } := by
  simp [mapstructureDecode, WebhookConfig.Convert, GoMap.keys, webHookKeys, decodeString,
    decodeStrMap, GoMap.get]

/-- Defaulting a configuration defaults its scraper block in place. -/
theorem arguments_setToDefault_scraper (args : Arguments) :
    args.SetToDefault.Scraper = args.Scraper.map ScraperConfig.SetToDefault := by
  rw [arguments_setToDefault_eq]

/-- C7: for a scraper block whose metrics matrix is entirely at its zero
value, defaulting and then `ScraperConfig.Convert` yields a "metrics" map with
all ten metric keys, in which "vcs.contributor.count" maps to enabled = false
and each of the other nine keys maps to enabled = true. -/
theorem default_matrix_converts_complete (sc : ScraperConfig)
    (hz : sc.Metrics = MetricsConfig.zero) :
    ∃ m : GoMap,
      GoMap.get "metrics" sc.SetToDefault.Convert = some (Value.map m) ∧
      GoMap.keys m = metricKeys ∧
      GoMap.get "vcs.contributor.count" m = some (enabledMap false) ∧
      ∀ k ∈ metricKeys, k ≠ "vcs.contributor.count" → GoMap.get k m = some (enabledMap true) := by
  refine ⟨MetricsConfig.Convert (some sc.Metrics.SetToDefault), ?_, rfl, rfl, ?_⟩
  · rw [scraper_setToDefault_eq, if_pos hz]
    simp [ScraperConfig.Convert, GoMap.get]
  · intro k hk hne
    simp only [metricKeys, List.mem_cons, List.mem_singleton, List.not_mem_nil, or_false] at hk
    rcases hk with rfl | rfl | rfl | rfl | rfl | rfl | rfl | rfl | rfl | rfl
    all_goals first
      | rfl
      | exact absurd rfl hne

/-- Witness of C7 at a scraper block that sets an org and no metric toggle,
reached through `Arguments.SetToDefault`. -/
theorem default_matrix_converts_complete_witness :
    sampleScraperOrgOnly.Metrics = MetricsConfig.zero ∧
      sampleArgsOrgOnly.SetToDefault.Scraper = some sampleScraperOrgOnly.SetToDefault ∧
      ∃ m : GoMap,
        GoMap.get "metrics" sampleScraperOrgOnly.SetToDefault.Convert = some (Value.map m) ∧
        GoMap.keys m = metricKeys ∧
        GoMap.get "vcs.contributor.count" m = some (enabledMap false) ∧
        ∀ k ∈ metricKeys, k ≠ "vcs.contributor.count" →
          GoMap.get k m = some (enabledMap true) :=
  ⟨rfl, arguments_setToDefault_scraper sampleArgsOrgOnly,
    default_matrix_converts_complete sampleScraperOrgOnly rfl⟩

/-- C8: for every metrics matrix, `MetricsConfig.Convert` yields a map whose
keys are exactly the ten fixed metric names, each once, and each key maps to
the one-entry map holding under "enabled" the value of its toggle; no other key
is present. -/
theorem metrics_convert_all_keys (m : MetricsConfig) :
    GoMap.keys (MetricsConfig.Convert (some m)) = metricKeys ∧
      metricKeys.Nodup ∧
      (∀ k, k ∉ metricKeys → GoMap.get k (MetricsConfig.Convert (some m)) = none) ∧
      GoMap.get "vcs.change.count" (MetricsConfig.Convert (some m)) =
        some (Value.map [("enabled", Value.bool m.VCSChangeCount.Enabled)]) ∧
      GoMap.get "vcs.change.duration" (MetricsConfig.Convert (some m)) =
        some (Value.map [("enabled", Value.bool m.VCSChangeDuration.Enabled)]) ∧
      GoMap.get "vcs.change.time_to_approval" (MetricsConfig.Convert (some m)) =
        some (Value.map [("enabled", Value.bool m.VCSChangeTimeToApproval.Enabled)]) ∧
      GoMap.get "vcs.change.time_to_merge" (MetricsConfig.Convert (some m)) =
        some (Value.map [("enabled", Value.bool m.VCSChangeTimeToMerge.Enabled)]) ∧
      GoMap.get "vcs.ref.count" (MetricsConfig.Convert (some m)) =
        some (Value.map [("enabled", Value.bool m.VCSRefCount.Enabled)]) ∧
      GoMap.get "vcs.ref.lines_delta" (MetricsConfig.Convert (some m)) =
        some (Value.map [("enabled", Value.bool m.VCSRefLinesDelta.Enabled)]) ∧
      GoMap.get "vcs.ref.revisions_delta" (MetricsConfig.Convert (some m)) =
        some (Value.map [("enabled", Value.bool m.VCSRefRevisionsDelta.Enabled)]) ∧
      GoMap.get "vcs.ref.time" (MetricsConfig.Convert (some m)) =
        some (Value.map [("enabled", Value.bool m.VCSRefTime.Enabled)]) ∧
      GoMap.get "vcs.repository.count" (MetricsConfig.Convert (some m)) =
        some (Value.map [("enabled", Value.bool m.VCSRepositoryCount.Enabled)]) ∧
      GoMap.get "vcs.contributor.count" (MetricsConfig.Convert (some m)) =
        some (Value.map [("enabled", Value.bool m.VCSContributorCount.Enabled)]) := by
  refine ⟨rfl, by decide, ?_, ?_, ?_, ?_, ?_, ?_, ?_, ?_, ?_, ?_, ?_⟩
  · intro k hk
    simp only [metricKeys, List.mem_cons, List.mem_singleton, List.not_mem_nil, or_false,
      not_or] at hk
    obtain ⟨h1, h2, h3, h4, h5, h6, h7, h8, h9, h10⟩ := hk
    simp [MetricsConfig.Convert, GoMap.get, Ne.symm h1, Ne.symm h2, Ne.symm h3, Ne.symm h4,
      Ne.symm h5, Ne.symm h6, Ne.symm h7, Ne.symm h8, Ne.symm h9, Ne.symm h10]
  all_goals simp [MetricsConfig.Convert, MetricConfig.Convert, GoMap.get]

/-- Result of `Arguments.Convert` when the decoder accepts the webhook map, or
when there is no webhook block. -/
theorem arguments_convert_mapstructure (args : Arguments) :
    args.Convert mapstructureDecode =
      Except.ok
        { ControllerConfig :=
            { InitialDelay := args.InitialDelay, CollectionInterval := args.CollectionInterval }
          Scrapers :=
            match args.Scraper with
            | some sc => [("scraper", Value.map sc.Convert)]
            | none => []
          WebHook :=
            match args.Webhook with
            | some wc =>
              { Endpoint := wc.Endpoint, Path := wc.Path, HealthPath := wc.HealthPath,
                Secret := wc.Secret, RequiredHeaders := wc.RequiredHeaders }
            | none => WebHook.zero } := by
  unfold Arguments.Convert
  cases args.Scraper <;> cases args.Webhook <;> simp [mapstructureDecode_webhook]

/-- Whatever the decoder, a conversion that succeeds returns the scraper
registry built from the scraper block. -/
theorem arguments_convert_scrapers (decode : Decoder) (args : Arguments) (cfg : Config)
    (h : args.Convert decode = Except.ok cfg) :
    cfg.Scrapers =
      match args.Scraper with
      | some sc => [("scraper", Value.map sc.Convert)]
      | none => [] := by
  unfold Arguments.Convert at h
  cases hs : args.Scraper <;> cases hw : args.Webhook <;> simp only [hs, hw] at h
  · cases h; rfl
  · split at h
    · cases h
    · cases h; rfl
  · cases h; rfl
  · split at h
    · cases h
    · cases h; rfl

/-- C9: for a configuration with a scraper block, conversion succeeds with the
modelled decoder, and every successful conversion has a scraper registry with
exactly one entry, keyed "scraper", whose value is the flattened map with
exactly the keys github_org, search_query, endpoint, auth and metrics, holding
the org, the search query, the endpoint override, the one-entry authenticator
map and the converted metrics matrix: the map with the ten metric names, each
mapped to the one-entry map that holds its toggle under "enabled". -/
theorem convert_scraper_entry (args : Arguments) (sc : ScraperConfig)
    (hsc : args.Scraper = some sc) :
    (∃ cfg, args.Convert mapstructureDecode = Except.ok cfg) ∧
      ∀ (decode : Decoder) (cfg : Config), args.Convert decode = Except.ok cfg →
        cfg.Scrapers = [("scraper", Value.map sc.Convert)] ∧
        GoMap.keys sc.Convert = ["github_org", "search_query", "endpoint", "auth", "metrics"] ∧
        GoMap.get "github_org" sc.Convert = some (Value.str sc.GithubOrg) ∧
        GoMap.get "search_query" sc.Convert = some (Value.str sc.SearchQuery) ∧
        GoMap.get "endpoint" sc.Convert = some (Value.str sc.Endpoint) ∧
        GoMap.get "auth" sc.Convert =
          some (Value.map [("authenticator", Value.str sc.Auth.Authenticator)]) ∧
        GoMap.get "metrics" sc.Convert =
          some (Value.map
            [ ("vcs.change.count",
                Value.map [("enabled", Value.bool sc.Metrics.VCSChangeCount.Enabled)]),
              ("vcs.change.duration",
                Value.map [("enabled", Value.bool sc.Metrics.VCSChangeDuration.Enabled)]),
              ("vcs.change.time_to_approval",
                Value.map [("enabled", Value.bool sc.Metrics.VCSChangeTimeToApproval.Enabled)]),
              ("vcs.change.time_to_merge",
                Value.map [("enabled", Value.bool sc.Metrics.VCSChangeTimeToMerge.Enabled)]),
              ("vcs.ref.count",
                Value.map [("enabled", Value.bool sc.Metrics.VCSRefCount.Enabled)]),
              ("vcs.ref.lines_delta",
                Value.map [("enabled", Value.bool sc.Metrics.VCSRefLinesDelta.Enabled)]),
              ("vcs.ref.revisions_delta",
                Value.map [("enabled", Value.bool sc.Metrics.VCSRefRevisionsDelta.Enabled)]),
              ("vcs.ref.time",
                Value.map [("enabled", Value.bool sc.Metrics.VCSRefTime.Enabled)]),
              ("vcs.repository.count",
                Value.map [("enabled", Value.bool sc.Metrics.VCSRepositoryCount.Enabled)]),
              ("vcs.contributor.count",
                Value.map [("enabled", Value.bool sc.Metrics.VCSContributorCount.Enabled)]) ]) ∧
        GoMap.get "metrics" sc.Convert =
          some (Value.map (MetricsConfig.Convert (some sc.Metrics))) ∧
        GoMap.keys (MetricsConfig.Convert (some sc.Metrics)) = metricKeys ∧
        cfg.Scrapers =
          [ ("scraper",
              Value.map
                [ ("github_org", Value.str sc.GithubOrg),
                  ("search_query", Value.str sc.SearchQuery),
                  ("endpoint", Value.str sc.Endpoint),
                  ("auth", Value.map [("authenticator", Value.str sc.Auth.Authenticator)]),
                  ("metrics", Value.map (MetricsConfig.Convert (some sc.Metrics))) ]) ] := by
  refine ⟨⟨_, arguments_convert_mapstructure args⟩, ?_⟩
  intro decode cfg h
  have hreg : cfg.Scrapers = [("scraper", Value.map sc.Convert)] := by
    rw [arguments_convert_scrapers decode args cfg h, hsc]
  refine ⟨hreg, rfl, ?_, ?_, ?_, ?_, ?_, ?_, rfl, ?_⟩
  · simp [ScraperConfig.Convert, GoMap.get]
  · simp [ScraperConfig.Convert, GoMap.get]
  · simp [ScraperConfig.Convert, GoMap.get]
  · simp [ScraperConfig.Convert, AuthConfig.Convert, GoMap.get]
  · simp [ScraperConfig.Convert, MetricsConfig.Convert, MetricConfig.Convert, GoMap.get]
  · simp [ScraperConfig.Convert, GoMap.get]
  · rw [hreg]; rfl

/-- Witness of C9 at the end-to-end example, which was not defaulted: the one
registry entry holds the org and a metrics map with all ten keys, every toggle
still disabled. -/
theorem convert_scraper_entry_witness :
    sampleArgsMyOrg.Scraper = some sampleScraperMyOrg ∧
      ∃ cfg, sampleArgsMyOrg.Convert mapstructureDecode = Except.ok cfg ∧
        cfg.Scrapers = [("scraper", Value.map sampleScraperMyOrg.Convert)] ∧
        GoMap.get "github_org" sampleScraperMyOrg.Convert = some (Value.str "my-org") ∧
        GoMap.get "metrics" sampleScraperMyOrg.Convert =
          some (Value.map
            [ ("vcs.change.count", Value.map [("enabled", Value.bool false)]),
              ("vcs.change.duration", Value.map [("enabled", Value.bool false)]),
              ("vcs.change.time_to_approval", Value.map [("enabled", Value.bool false)]),
              ("vcs.change.time_to_merge", Value.map [("enabled", Value.bool false)]),
              ("vcs.ref.count", Value.map [("enabled", Value.bool false)]),
              ("vcs.ref.lines_delta", Value.map [("enabled", Value.bool false)]),
              ("vcs.ref.revisions_delta", Value.map [("enabled", Value.bool false)]),
              ("vcs.ref.time", Value.map [("enabled", Value.bool false)]),
              ("vcs.repository.count", Value.map [("enabled", Value.bool false)]),
              ("vcs.contributor.count", Value.map [("enabled", Value.bool false)]) ]) :=
  ⟨rfl, _, arguments_convert_mapstructure sampleArgsMyOrg,
    ((convert_scraper_entry sampleArgsMyOrg sampleScraperMyOrg rfl).2 mapstructureDecode _
      (arguments_convert_mapstructure sampleArgsMyOrg)).1,
    ((convert_scraper_entry sampleArgsMyOrg sampleScraperMyOrg rfl).2 mapstructureDecode _
      (arguments_convert_mapstructure sampleArgsMyOrg)).2.2.1,
    ((convert_scraper_entry sampleArgsMyOrg sampleScraperMyOrg rfl).2 mapstructureDecode _
      (arguments_convert_mapstructure sampleArgsMyOrg)).2.2.2.2.2.2.1⟩

/-- C10: for a configuration without a scraper block, every successful
conversion leaves the scraper registry empty; conversion succeeds when there is
no webhook block, and with a webhook block the modelled decoder yields a
backend configuration whose webhook section holds the fields of the block and
whose scraper registry is empty. -/
theorem convert_without_scraper (args : Arguments) (hsc : args.Scraper = none) :
    (∀ (decode : Decoder) (cfg : Config),
        args.Convert decode = Except.ok cfg → cfg.Scrapers = []) ∧
      (args.Webhook = none →
        ∀ decode : Decoder, ∃ cfg, args.Convert decode = Except.ok cfg ∧ cfg.Scrapers = []) ∧
      (∀ wc, args.Webhook = some wc →
        ∃ cfg, args.Convert mapstructureDecode = Except.ok cfg ∧ cfg.Scrapers = [] ∧
          cfg.WebHook =
            { Endpoint := wc.Endpoint, Path := wc.Path, HealthPath := wc.HealthPath,
              Secret := wc.Secret, RequiredHeaders := wc.RequiredHeaders }) := by
  refine ⟨?_, ?_, ?_⟩
  · intro decode cfg h
    rw [arguments_convert_scrapers decode args cfg h, hsc]
  · intro hw decode
    have h : args.Convert decode =
        Except.ok
          { ControllerConfig :=
              { InitialDelay := args.InitialDelay,
                CollectionInterval := args.CollectionInterval },
            Scrapers := [],
            WebHook := WebHook.zero } := by
      simp only [Arguments.Convert, hsc, hw]
    exact ⟨_, h, rfl⟩
  · intro wc hw
    refine ⟨_, arguments_convert_mapstructure args, ?_, ?_⟩
    · simp only [hsc]
    · simp only [hw]

/-- Witness of C10 at a configuration with only a webhook block whose endpoint
is "0.0.0.0:9090". -/
theorem convert_without_scraper_witness :
    sampleArgsWebhookOnly.Scraper = none ∧
      ∃ cfg, sampleArgsWebhookOnly.Convert mapstructureDecode = Except.ok cfg ∧
        cfg.Scrapers = [] ∧
        cfg.WebHook =
          { Endpoint := "0.0.0.0:9090", Path := "", HealthPath := "", Secret := "",
            RequiredHeaders := [] } :=
  ⟨rfl, (convert_without_scraper sampleArgsWebhookOnly rfl).2.2 _ rfl⟩

/-- Unfolding of `Arguments.Convert`: the controller fields and the scraper
registry are fixed before the webhook map is decoded into the zero webhook
section; the only error is the decoder's. -/
theorem arguments_convert_eq (decode : Decoder) (args : Arguments) :
    args.Convert decode =
      match args.Webhook with
      | some wc =>
        match decode wc.Convert WebHook.zero with
        | Except.error err => Except.error err
        | Except.ok wh =>
          Except.ok
            { ControllerConfig :=
                { InitialDelay := args.InitialDelay,
                  CollectionInterval := args.CollectionInterval }
              Scrapers := scraperRegistry args.Scraper
              WebHook := wh }
      | none =>
        Except.ok
          { ControllerConfig :=
              { InitialDelay := args.InitialDelay,
                CollectionInterval := args.CollectionInterval }
            Scrapers := scraperRegistry args.Scraper
            WebHook := WebHook.zero } := by
  unfold Arguments.Convert
  cases args.Scraper <;> cases args.Webhook <;> simp only [scraperRegistry]

/-- Whatever the decoder, a conversion that succeeds returns the controller
fields of the configuration. -/
theorem arguments_convert_controller (decode : Decoder) (args : Arguments) (cfg : Config)
    (h : args.Convert decode = Except.ok cfg) :
    cfg.ControllerConfig =
      { InitialDelay := args.InitialDelay, CollectionInterval := args.CollectionInterval } := by
  rw [arguments_convert_eq] at h
  cases hw : args.Webhook with
  | none =>
    simp only [hw] at h
    cases h; rfl
  | some wc =>
    simp only [hw] at h
    split at h
    · cases h
    · cases h; rfl

/-- C11: conversion succeeds with the modelled decoder, and every successful
`Arguments.Convert` copies the scheduling fields unchanged: the backend initial
delay is the configuration's initial delay and the backend collection interval
is the configuration's collection interval; in particular a zero collection
interval is converted to zero, not to 30 seconds. -/
theorem convert_copies_scheduling (args : Arguments) :
    (∃ cfg, args.Convert mapstructureDecode = Except.ok cfg) ∧
      ∀ (decode : Decoder) (cfg : Config), args.Convert decode = Except.ok cfg →
        cfg.ControllerConfig.InitialDelay = args.InitialDelay ∧
        cfg.ControllerConfig.CollectionInterval = args.CollectionInterval ∧
        (args.CollectionInterval = 0 → cfg.ControllerConfig.CollectionInterval = 0) := by
  refine ⟨⟨_, arguments_convert_mapstructure args⟩, ?_⟩
  intro decode cfg h
  rw [arguments_convert_controller decode args cfg h]
  exact ⟨rfl, rfl, fun h0 => h0⟩

/-- Witness of C11 at a configuration that was never defaulted: its zero
collection interval is converted to zero. -/
theorem convert_copies_scheduling_witness :
    sampleArgsUndefaulted.CollectionInterval = 0 ∧
      ∃ cfg, sampleArgsUndefaulted.Convert mapstructureDecode = Except.ok cfg ∧
        cfg.ControllerConfig.CollectionInterval = 0 ∧
        cfg.ControllerConfig.CollectionInterval ≠ 30 * Second :=
  ⟨rfl, _, arguments_convert_mapstructure sampleArgsUndefaulted,
    ((convert_copies_scheduling sampleArgsUndefaulted).2 mapstructureDecode _
      (arguments_convert_mapstructure sampleArgsUndefaulted)).2.2 rfl,
    by decide⟩

/-! ## Webhook defaulting and translation -/

/-- C12: `WebhookConfig.SetToDefault` sets the endpoint to "localhost:8080"
when it was empty and leaves it unchanged otherwise, sets the path to "/events"
when it was empty and leaves it unchanged otherwise, sets the health path to
"/health" when it was empty and leaves it unchanged otherwise; a non-empty
value is never overwritten, and the secret and the required headers are
unchanged. -/
theorem webhook_setToDefault_fields (w : WebhookConfig) :
    w.SetToDefault.Endpoint = (if w.Endpoint = "" then "localhost:8080" else w.Endpoint) ∧
      w.SetToDefault.Path = (if w.Path = "" then "/events" else w.Path) ∧
      w.SetToDefault.HealthPath = (if w.HealthPath = "" then "/health" else w.HealthPath) ∧
      (w.Endpoint ≠ "" → w.SetToDefault.Endpoint = w.Endpoint) ∧
      (w.Path ≠ "" → w.SetToDefault.Path = w.Path) ∧
      (w.HealthPath ≠ "" → w.SetToDefault.HealthPath = w.HealthPath) ∧
      w.SetToDefault.Secret = w.Secret ∧
      w.SetToDefault.RequiredHeaders = w.RequiredHeaders := by
  rw [webhook_setToDefault_eq]
  refine ⟨rfl, rfl, rfl, ?_, ?_, ?_, rfl, rfl⟩ <;> intro h <;> simp [h]

/-- Witness of C12 at a block with only the endpoint set and at a block with
every field set. -/
theorem webhook_setToDefault_fields_witness :
    sampleWebhookEndpointOnly.SetToDefault =
        { Endpoint := "0.0.0.0:9090", Path := "/events", HealthPath := "/health", Secret := "",
          RequiredHeaders := [] } ∧
      sampleWebhookCustom.SetToDefault.Endpoint = "0.0.0.0:8080" ∧
      sampleWebhookCustom.SetToDefault.Path = "/github/events" ∧
      sampleWebhookCustom.SetToDefault.HealthPath = "/github/health" :=
  ⟨by decide,
    (webhook_setToDefault_fields sampleWebhookCustom).2.2.2.1 (by decide),
    (webhook_setToDefault_fields sampleWebhookCustom).2.2.2.2.1 (by decide),
    (webhook_setToDefault_fields sampleWebhookCustom).2.2.2.2.2.1 (by decide)⟩

/-- Defaulting a configuration defaults its webhook block in place. -/
theorem arguments_setToDefault_webhook (args : Arguments) :
    args.SetToDefault.Webhook = args.Webhook.map WebhookConfig.SetToDefault := by
  rw [arguments_setToDefault_eq]

/-- C13: for a configuration whose webhook block has only a non-empty endpoint
set (path and health path empty), `Arguments.SetToDefault` followed by
conversion yields a flattened webhook map, and with the modelled decoder a
backend webhook section, whose endpoint is that endpoint, whose path is
"/events" and whose health path is "/health". -/
theorem webhook_default_fill (args : Arguments) (wc : WebhookConfig)
    (hwc : args.Webhook = some wc) (he : wc.Endpoint ≠ "") (hp : wc.Path = "")
    (hh : wc.HealthPath = "") :
    args.SetToDefault.Webhook = some wc.SetToDefault ∧
      GoMap.get "endpoint" wc.SetToDefault.Convert = some (Value.str wc.Endpoint) ∧
      GoMap.get "path" wc.SetToDefault.Convert = some (Value.str "/events") ∧
      GoMap.get "health_path" wc.SetToDefault.Convert = some (Value.str "/health") ∧
      ∃ cfg, args.SetToDefault.Convert mapstructureDecode = Except.ok cfg ∧
        cfg.WebHook.Endpoint = wc.Endpoint ∧
        cfg.WebHook.Path = "/events" ∧
        cfg.WebHook.HealthPath = "/health" := by
  have hw : args.SetToDefault.Webhook = some wc.SetToDefault := by
    rw [arguments_setToDefault_webhook, hwc]; rfl
  have hd : wc.SetToDefault =
      { Endpoint := wc.Endpoint, Path := "/events", HealthPath := "/health",
        Secret := wc.Secret, RequiredHeaders := wc.RequiredHeaders } := by
    rw [webhook_setToDefault_eq]; simp [he, hp, hh]
  refine ⟨hw, ?_, ?_, ?_, _, arguments_convert_mapstructure args.SetToDefault, ?_, ?_, ?_⟩
  · rw [hd]; simp [WebhookConfig.Convert, GoMap.get]
  · rw [hd]; simp [WebhookConfig.Convert, GoMap.get]
  · rw [hd]; simp [WebhookConfig.Convert, GoMap.get]
  · simp only [hw, hd]
  · simp only [hw, hd]
  · simp only [hw, hd]

/-- Witness of C13 at the "webhook with defaults" configuration, whose webhook
block sets only the endpoint "0.0.0.0:9090". -/
theorem webhook_default_fill_witness :
    sampleArgsWebhookDefaults.Webhook = some sampleWebhookEndpointOnly ∧
      ∃ cfg, sampleArgsWebhookDefaults.SetToDefault.Convert mapstructureDecode = Except.ok cfg ∧
        cfg.WebHook.Endpoint = "0.0.0.0:9090" ∧
        cfg.WebHook.Path = "/events" ∧
        cfg.WebHook.HealthPath = "/health" :=
  ⟨rfl, (webhook_default_fill sampleArgsWebhookDefaults sampleWebhookEndpointOnly rfl
    (by decide) rfl rfl).2.2.2.2⟩

/-- C14: for every webhook block, `WebhookConfig.Convert` yields a map whose
keys are exactly endpoint, path, health_path, secret and required_headers, each
once, holding the listen endpoint, path, health path, secret and
required-headers mapping of the block unchanged; this map is what
`Arguments.Convert` hands to the decoder, together with the zero webhook
section, whenever a webhook block is present, and the modelled decoder copies
it field for field. -/
theorem webhook_convert_fields (w : WebhookConfig) :
    GoMap.keys w.Convert = ["endpoint", "path", "health_path", "secret", "required_headers"] ∧
      (GoMap.keys w.Convert).Nodup ∧
      GoMap.get "endpoint" w.Convert = some (Value.str w.Endpoint) ∧
      GoMap.get "path" w.Convert = some (Value.str w.Path) ∧
      GoMap.get "health_path" w.Convert = some (Value.str w.HealthPath) ∧
      GoMap.get "secret" w.Convert = some (Value.str w.Secret) ∧
      GoMap.get "required_headers" w.Convert = some (Value.strMap w.RequiredHeaders) ∧
      (∀ (decode : Decoder) (args : Arguments), args.Webhook = some w →
        args.Convert decode =
          match decode w.Convert WebHook.zero with
          | Except.error err => Except.error err
          | Except.ok wh =>
            Except.ok
              { ControllerConfig :=
                  { InitialDelay := args.InitialDelay,
                    CollectionInterval := args.CollectionInterval }
                Scrapers := scraperRegistry args.Scraper
                WebHook := wh }) ∧
      mapstructureDecode w.Convert WebHook.zero =
        Except.ok
          { Endpoint := w.Endpoint, Path := w.Path, HealthPath := w.HealthPath,
            Secret := w.Secret, RequiredHeaders := w.RequiredHeaders } := by
  refine ⟨rfl, ?_, ?_, ?_, ?_, ?_, ?_, ?_, mapstructureDecode_webhook w WebHook.zero⟩
  · simp [WebhookConfig.Convert, GoMap.keys]
  · simp [WebhookConfig.Convert, GoMap.get]
  · simp [WebhookConfig.Convert, GoMap.get]
  · simp [WebhookConfig.Convert, GoMap.get]
  · simp [WebhookConfig.Convert, GoMap.get]
  · simp [WebhookConfig.Convert, GoMap.get]
  · intro decode args hw
    rw [arguments_convert_eq, hw]

/-- Witness of C14 at the "webhook with custom values" block inside a
configuration: the backend webhook section holds the five fields. -/
theorem webhook_convert_fields_witness :
    ({ sampleArgsMyOrg with Webhook := some sampleWebhookCustom } : Arguments).Webhook =
        some sampleWebhookCustom ∧
      ({ sampleArgsMyOrg with Webhook := some sampleWebhookCustom } : Arguments).Convert
          mapstructureDecode =
        Except.ok
          { ControllerConfig := { InitialDelay := 0, CollectionInterval := 60 * Second }
            Scrapers := [("scraper", Value.map sampleScraperMyOrg.Convert)]
            WebHook :=
              { Endpoint := "0.0.0.0:8080", Path := "/github/events",
                HealthPath := "/github/health", Secret := "super-secret",
                RequiredHeaders := [("X-GitHub-Event", "pull_request")] } } :=
  ⟨rfl, by
    rw [(webhook_convert_fields sampleWebhookCustom).2.2.2.2.2.2.2.1 mapstructureDecode
      { sampleArgsMyOrg with Webhook := some sampleWebhookCustom } rfl,
      mapstructureDecode_webhook]
    rfl⟩

/-- C15: `Arguments.Convert` can fail only through the webhook decode. Without
a webhook block it returns a backend configuration whatever the decoder and
whatever the scraper block holds; when it fails, a webhook block is present and
the error is the decoder's error on that block's flattened map; and when the
decoder fails on that map, conversion fails with the same error. -/
theorem convert_fails_only_through_decode (decode : Decoder) (args : Arguments) :
    (args.Webhook = none → ∃ cfg, args.Convert decode = Except.ok cfg) ∧
      (∀ e, args.Convert decode = Except.error e →
        ∃ wc, args.Webhook = some wc ∧ decode wc.Convert WebHook.zero = Except.error e) ∧
      (∀ wc e, args.Webhook = some wc → decode wc.Convert WebHook.zero = Except.error e →
        args.Convert decode = Except.error e) := by
  refine ⟨?_, ?_, ?_⟩
  · intro hw
    rw [arguments_convert_eq, hw]
    exact ⟨_, rfl⟩
  · intro e h
    rw [arguments_convert_eq] at h
    cases hw : args.Webhook with
    | none => simp only [hw] at h; cases h
    | some wc =>
      refine ⟨wc, rfl, ?_⟩
      simp only [hw] at h
      cases hd : decode wc.Convert WebHook.zero with
      | error e' =>
        simp only [hd] at h
        cases h; rfl
      | ok wh =>
        simp only [hd] at h
        cases h
  · intro wc e hw hd
    rw [arguments_convert_eq, hw]
    simp only [hd]

/-- Witness of C15: a configuration that fails validation and has no webhook
block converts even with the rejecting decoder, and a configuration with a
webhook block fails under the rejecting decoder with the decoder's error. -/
theorem convert_fails_only_through_decode_witness :
    sampleArgsNoOrgNoWebhook.Validate = Except.error "github_org is required" ∧
      sampleArgsNoOrgNoWebhook.Webhook = none ∧
      (∃ cfg, sampleArgsNoOrgNoWebhook.Convert rejectingDecode = Except.ok cfg) ∧
      sampleArgsWebhookDefaults.Convert rejectingDecode = Except.error "decode failure" :=
  ⟨rfl, rfl,
    (convert_fails_only_through_decode rejectingDecode sampleArgsNoOrgNoWebhook).1 rfl,
    (convert_fails_only_through_decode rejectingDecode sampleArgsWebhookDefaults).2.2
      sampleWebhookEndpointOnly "decode failure" rfl rfl⟩

/-! ## Storage reference and accessors -/

/-- Counterexample to C16 as stated: two configurations that differ only in
their storage reference convert to the same backend configuration, so the
result does not carry the handle. -/
theorem convert_same_for_two_storages :
    sampleArgsStorageA.Storage = some { ID := "file_storage.a" } ∧
      sampleArgsStorageB.Storage = some { ID := "file_storage.b" } ∧
      sampleArgsStorageA.Storage ≠ sampleArgsStorageB.Storage ∧
      sampleArgsStorageB = { sampleArgsStorageA with Storage := sampleArgsStorageB.Storage } ∧
      sampleArgsStorageA.Convert mapstructureDecode =
        sampleArgsStorageB.Convert mapstructureDecode :=
  ⟨rfl, rfl, by decide, rfl, rfl⟩

/-- C16, amended: `Arguments.Convert` never reads the storage reference:
replacing the storage reference of a configuration by any other one, present or
absent, leaves the result of the conversion (backend configuration or error)
unchanged, whatever the decoder; the handle stays in the configuration itself,
which `Arguments.SetToDefault` does not alter. -/
theorem convert_ignores_storage (decode : Decoder) (args : Arguments)
    (s : Option ExtensionHandler) :
    ({ args with Storage := s } : Arguments).Convert decode = args.Convert decode ∧
      args.SetToDefault.Storage = args.Storage := by
  refine ⟨rfl, ?_⟩
  rw [arguments_setToDefault_eq]

/-- C17: the accessors are projections of the configuration: `Extensions`
returns no extension handle, `NextConsumers` returns the output sink, and
`DebugMetricsConfig` returns the debug-telemetry settings unchanged, so that a
`disable_high_cardinality_metrics` of false is reported as false. -/
theorem accessors_project (args : Arguments) :
    args.Extensions = [] ∧
      args.NextConsumers = args.Output ∧
      args.DebugMetricsConfig = args.DebugMetrics ∧
      (args.DebugMetrics.DisableHighCardinalityMetrics = false →
        args.DebugMetricsConfig.DisableHighCardinalityMetrics = false) :=
  ⟨rfl, rfl, rfl, fun h => h⟩

/-- Witness of C17 at a configuration with an output sink, a storage reference
and `disable_high_cardinality_metrics = false`. -/
theorem accessors_project_witness :
    sampleArgsDebugBasic.Extensions = [] ∧
      sampleArgsDebugBasic.NextConsumers = some { Targets := ["exporter"] } ∧
      sampleArgsDebugBasic.DebugMetricsConfig =
        { DisableHighCardinalityMetrics := false, Level := "basic" } ∧
      sampleArgsDebugBasic.DebugMetricsConfig.DisableHighCardinalityMetrics = false :=
  ⟨(accessors_project sampleArgsDebugBasic).1, (accessors_project sampleArgsDebugBasic).2.1,
    (accessors_project sampleArgsDebugBasic).2.2.1,
    (accessors_project sampleArgsDebugBasic).2.2.2 rfl⟩

/-! ## All-or-nothing matrix defaulting, validation after defaulting, frame -/

/-- No toggle is enabled exactly when the matrix is the zero matrix. -/
theorem anyEnabled_eq_false_iff (m : MetricsConfig) :
    m.anyEnabled = false ↔ m = MetricsConfig.zero := by
  obtain ⟨⟨a⟩, ⟨b⟩, ⟨c⟩, ⟨d⟩, ⟨e⟩, ⟨f⟩, ⟨g⟩, ⟨h⟩, ⟨i⟩, ⟨j⟩⟩ := m
  simp [MetricsConfig.anyEnabled, MetricsConfig.zero, and_assoc]

/-- C18: matrix defaulting is all-or-nothing. A scraper block whose matrix has
at least one toggle enabled is left exactly as it was by
`ScraperConfig.SetToDefault`, disabled toggles included; a matrix with all ten
toggles disabled is replaced by the default matrix; so after defaulting the
matrix of a scraper block always has an enabled toggle, also when the block is
defaulted through `Arguments.SetToDefault`. -/
theorem matrix_defaulting_all_or_nothing (sc : ScraperConfig) :
    (sc.Metrics.anyEnabled = true → sc.SetToDefault = sc) ∧
      (sc.Metrics.anyEnabled = false →
        sc.SetToDefault.Metrics =
          { VCSChangeCount := ⟨true⟩
            VCSChangeDuration := ⟨true⟩
            VCSChangeTimeToApproval := ⟨true⟩
            VCSChangeTimeToMerge := ⟨true⟩
            VCSRefCount := ⟨true⟩
            VCSRefLinesDelta := ⟨true⟩
            VCSRefRevisionsDelta := ⟨true⟩
            VCSRefTime := ⟨true⟩
            VCSRepositoryCount := ⟨true⟩
            VCSContributorCount := ⟨false⟩ }) ∧
      sc.SetToDefault.Metrics.anyEnabled = true ∧
      (∀ args : Arguments, args.Scraper = some sc →
        ∃ sc', args.SetToDefault.Scraper = some sc' ∧ sc'.Metrics.anyEnabled = true) := by
  have hne : sc.Metrics.anyEnabled = true → sc.Metrics ≠ MetricsConfig.zero := by
    intro h hz
    rw [← anyEnabled_eq_false_iff, h] at hz
    cases hz
  have hafter : sc.SetToDefault.Metrics.anyEnabled = true := by
    rw [scraper_setToDefault_eq]
    by_cases hz : sc.Metrics = MetricsConfig.zero
    · simp [hz, MetricsConfig.SetToDefault, MetricsConfig.anyEnabled]
    · have : sc.Metrics.anyEnabled ≠ false := fun h => hz ((anyEnabled_eq_false_iff _).1 h)
      simpa [hz] using this
  refine ⟨?_, ?_, hafter, ?_⟩
  · intro h
    rw [scraper_setToDefault_eq, if_neg (hne h)]
  · intro h
    rw [scraper_setToDefault_eq, if_pos ((anyEnabled_eq_false_iff _).1 h)]
    rfl
  · intro args hs
    refine ⟨sc.SetToDefault, ?_, hafter⟩
    rw [arguments_setToDefault_scraper, hs]
    rfl

/-- Witness of C18 at the "selective metrics disabled" matrix: only
`vcs.change.count` is enabled and defaulting raises none of the other nine. -/
theorem matrix_defaulting_all_or_nothing_witness :
    sampleScraperSelective.Metrics.anyEnabled = true ∧
      sampleScraperSelective.SetToDefault = sampleScraperSelective ∧
      sampleScraperSelective.SetToDefault.Metrics.VCSChangeDuration.Enabled = false ∧
      sampleScraperMyOrg.Metrics.anyEnabled = false ∧
      sampleScraperMyOrg.SetToDefault.Metrics.VCSChangeDuration.Enabled = true :=
  ⟨rfl, (matrix_defaulting_all_or_nothing sampleScraperSelective).1 rfl,
    by rw [(matrix_defaulting_all_or_nothing sampleScraperSelective).1 rfl]; rfl,
    rfl,
    by rw [(matrix_defaulting_all_or_nothing sampleScraperMyOrg).2.1 rfl]⟩

/-- Validation reads only the org of the scraper block, which defaulting
keeps. -/
theorem scraper_validate_setToDefault (sc : ScraperConfig) :
    sc.SetToDefault.Validate = sc.Validate := by
  rw [scraper_setToDefault_eq]
  rfl

/-- C19: defaulting does not change the validation outcome: `Arguments.Validate`
returns the same result on the defaulted configuration as on the configuration
itself, so one fails exactly when the other does; defaulting neither adds nor
removes the scraper block and leaves its org as it was. -/
theorem validate_unchanged_by_default (c : Arguments) :
    c.SetToDefault.Validate = c.Validate ∧
      ((∃ e, c.SetToDefault.Validate = Except.error e) ↔ ∃ e, c.Validate = Except.error e) ∧
      c.SetToDefault.Scraper.map ScraperConfig.GithubOrg =
        c.Scraper.map ScraperConfig.GithubOrg := by
  have hv : c.SetToDefault.Validate = c.Validate := by
    unfold Arguments.Validate
    rw [arguments_setToDefault_scraper]
    cases c.Scraper with
    | none => rfl
    | some sc => simp only [Option.map_some', scraper_validate_setToDefault]
  refine ⟨hv, by rw [hv], ?_⟩
  rw [arguments_setToDefault_scraper]
  cases c.Scraper with
  | none => rfl
  | some sc => simp only [Option.map_some', scraper_setToDefault_eq]

/-- Witness of C19 at a configuration that fails validation and at one that
passes it. -/
theorem validate_unchanged_by_default_witness :
    sampleArgsNoOrg.SetToDefault.Validate = Except.error "github_org is required" ∧
      sampleArgsOrgOnly.SetToDefault.Validate = Except.ok () :=
  ⟨(validate_unchanged_by_default sampleArgsNoOrg).1.trans rfl,
    (validate_unchanged_by_default sampleArgsOrgOnly).1.trans rfl⟩

/-- C20: frame of defaulting. `Arguments.SetToDefault` never creates or removes
the scraper or the webhook block and leaves unchanged the initial delay, the
scraper's org, search query, endpoint and authenticator reference, the
webhook's secret and required headers, the storage reference and the output
sink: the defaulted configuration is the original one with at most the
collection interval, the scraper's metrics matrix, the webhook's endpoint, path
and health path and the debug-telemetry settings replaced. -/
theorem setToDefault_frame (c : Arguments) :
    c.SetToDefault.InitialDelay = c.InitialDelay ∧
      c.SetToDefault.Storage = c.Storage ∧
      c.SetToDefault.Output = c.Output ∧
      c.SetToDefault.Scraper.isSome = c.Scraper.isSome ∧
      c.SetToDefault.Webhook.isSome = c.Webhook.isSome ∧
      (∀ sc, c.Scraper = some sc →
        ∃ sc', c.SetToDefault.Scraper = some sc' ∧ sc'.GithubOrg = sc.GithubOrg ∧
          sc'.SearchQuery = sc.SearchQuery ∧ sc'.Endpoint = sc.Endpoint ∧ sc'.Auth = sc.Auth) ∧
      (∀ wc, c.Webhook = some wc →
        ∃ wc', c.SetToDefault.Webhook = some wc' ∧ wc'.Secret = wc.Secret ∧
          wc'.RequiredHeaders = wc.RequiredHeaders) ∧
      c.SetToDefault =
        { c with
          CollectionInterval := c.SetToDefault.CollectionInterval
          Scraper := c.Scraper.map fun sc => { sc with Metrics := sc.SetToDefault.Metrics }
          Webhook := c.Webhook.map fun wc =>
            { wc with
              Endpoint := wc.SetToDefault.Endpoint
              Path := wc.SetToDefault.Path
              HealthPath := wc.SetToDefault.HealthPath }
          DebugMetrics := c.SetToDefault.DebugMetrics } := by
  refine ⟨?_, ?_, ?_, ?_, ?_, ?_, ?_, ?_⟩
  · rw [arguments_setToDefault_eq]
  · rw [arguments_setToDefault_eq]
  · rw [arguments_setToDefault_eq]
  · rw [arguments_setToDefault_eq]; cases c.Scraper <;> rfl
  · rw [arguments_setToDefault_eq]; cases c.Webhook <;> rfl
  · intro sc hs
    refine ⟨sc.SetToDefault, by rw [arguments_setToDefault_scraper, hs]; rfl, ?_⟩
    rw [scraper_setToDefault_eq]
    exact ⟨rfl, rfl, rfl, rfl⟩
  · intro wc hw
    refine ⟨wc.SetToDefault, by rw [arguments_setToDefault_webhook, hw]; rfl, ?_⟩
    rw [webhook_setToDefault_eq]
    exact ⟨rfl, rfl⟩
  · conv_lhs => rw [arguments_setToDefault_eq]
    obtain ⟨d, ci, sc, wc, st, dm, out⟩ := c
    cases sc <;> cases wc <;>
      simp [arguments_setToDefault_eq, scraper_setToDefault_eq, webhook_setToDefault_eq]

/-- Witness of C20 at a configuration with both blocks, a storage reference
and an output sink. -/
theorem setToDefault_frame_witness :
    sampleArgsDebugBasic.SetToDefault.InitialDelay = 5 * Second ∧
      sampleArgsDebugBasic.SetToDefault.Storage = some { ID := "file_storage" } ∧
      ∃ sc', sampleArgsDebugBasic.SetToDefault.Scraper = some sc' ∧ sc'.GithubOrg = "my-org" ∧
        sc'.SearchQuery = "is:pr is:open" ∧ sc'.Endpoint = "" ∧
        sc'.Auth = { Authenticator := "my_auth" } :=
  ⟨(setToDefault_frame sampleArgsDebugBasic).1, (setToDefault_frame sampleArgsDebugBasic).2.1,
    (setToDefault_frame sampleArgsDebugBasic).2.2.2.2.2.1 _ rfl⟩

end Github
